import Mathlib

/-!
Verification of the housing-market data-unification and scoring pipeline.

Each definition in this file is a shallow embedding of a function of the
repository (pandas DataFrame columns become Lean lists, float arithmetic
becomes exact rational or real arithmetic, dates become a year/month/day
record or a month index).  The theorems at the end of the file settle the
frozen claims about the pipeline.
-/

namespace Housing

/-! ## Sorting (pandas `sort_values`)

A stable insertion sort; stability matches pandas' default only where a claim
needs it (the key columns involved are duplicate-free in the sources). -/

/-- Insert `x` into `l` before the first element `y` with `le x y`. -/
def insertBy {α : Type} (le : α → α → Bool) (x : α) : List α → List α
  | [] => [x]
  | y :: ys => if le x y then x :: y :: ys else y :: insertBy le x ys

/-- Sort `l` by the Boolean comparison `le` (insertion sort). -/
def sortBy {α : Type} (le : α → α → Bool) (l : List α) : List α :=
  l.foldr (insertBy le) []

theorem length_insertBy {α : Type} (le : α → α → Bool) (x : α) (l : List α) :
    (insertBy le x l).length = l.length + 1 := by
  induction l with
  | nil => rfl
  | cons y ys ih =>
    by_cases h : le x y
    · simp [insertBy, h]
    · simp [insertBy, h, ih]

theorem length_sortBy {α : Type} (le : α → α → Bool) (l : List α) :
    (sortBy le l).length = l.length := by
  induction l with
  | nil => rfl
  | cons y ys ih => simp [sortBy, List.foldr] at ih ⊢; simp [length_insertBy, ih]

/-! ## Min/max over a list of rationals (pandas `Series.min` / `Series.max`) -/

/-- Minimum of a list of rationals; `0` for the empty list (the sources only
apply it to non-empty candidate sets). -/
def listMin : List ℚ → ℚ
  | [] => 0
  | [x] => x
  | x :: y :: xs => min x (listMin (y :: xs))

/-- Maximum of a list of rationals; `0` for the empty list. -/
def listMax : List ℚ → ℚ
  | [] => 0
  | [x] => x
  | x :: y :: xs => max x (listMax (y :: xs))

theorem listMin_le {l : List ℚ} {y : ℚ} (hy : y ∈ l) : listMin l ≤ y := by
  induction l with
  | nil => cases hy
  | cons x xs ih =>
    cases xs with
    | nil =>
      rcases List.mem_cons.mp hy with h | h
      · simp [listMin, h]
      · cases h
    | cons z zs =>
      rcases List.mem_cons.mp hy with h | h
      · simp [listMin, h, min_le_left]
      · exact le_trans (by simp [listMin, min_le_right]) (ih h)

theorem le_listMax {l : List ℚ} {y : ℚ} (hy : y ∈ l) : y ≤ listMax l := by
  induction l with
  | nil => cases hy
  | cons x xs ih =>
    cases xs with
    | nil =>
      rcases List.mem_cons.mp hy with h | h
      · simp [listMax, h]
      · cases h
    | cons z zs =>
      rcases List.mem_cons.mp hy with h | h
      · simp [listMax, h, le_max_left]
      · exact le_trans (ih h) (by simp [listMax, le_max_right])

/-! ## Min-max normalization

Embeds `normalize` from `scoring_all_counties.py` (lines 185–191) and the
identical inner function of `scoring_methodology.py` (lines 140–146):

    min_val = series.min(); max_val = series.max()
    if max_val == min_val: return pd.Series([50] * len(series), ...)
    return ((series - min_val) / (max_val - min_val)) * 100
-/

/-- Min-max normalization of a candidate series to the 0–100 scale. -/
def normalize (l : List ℚ) : List ℚ :=
  let mn := listMin l
  let mx := listMax l
  if mx = mn then List.replicate l.length 50
  else l.map (fun x => (x - mn) / (mx - mn) * 100)

/-! ## Price-tier rental-yield fallback

Embeds `estimate_yield` from `scoring_all_counties.py` (lines 105–115),
repeated verbatim in `scoring_all_counties_zscore.py` (lines 99–109). -/

/-- Fallback rental-yield estimate by price tier (percent). -/
def estimate_yield (price : ℚ) : ℚ :=
  if price < 350000 then 13/2
  else if price < 450000 then 6
  else if price < 550000 then 11/2
  else if price < 700000 then 5
  else 9/2

/-! ## Composite scoring engine

Embeds `AllCountyScoringMethodology.calculate_scores` from
`scoring_all_counties.py` (lines 120–204).  One input row per county, with
the metrics produced by `load_all_county_data`. -/

/-- One row of the per-county metrics table fed to the scoring engine. -/
structure ScoreInput where
  county : String
  price : ℚ
  yoy_growth : ℚ
  cagr_3y : ℚ
  pop_growth : ℚ
  deriving DecidableEq, Repr

/-- pandas `Series.median`: sort, take the middle element (odd length) or the
mean of the two middle elements (even length); `0` on the empty series. -/
def medianQ (l : List ℚ) : ℚ :=
  let s := sortBy (fun a b => a ≤ b) l
  let n := l.length
  if n = 0 then 0
  else if n % 2 = 1 then s.getD (n / 2) 0
  else (s.getD (n / 2 - 1) 0 + s.getD (n / 2) 0) / 2

/-- The four component weights of the composite score.  In the source they are
not a configuration object: they appear only as the literals `0.30`, `0.40`,
`0.20`, `0.10` inlined in the `final_score` expression at each call site
(`scoring_all_counties.py` lines 193–199, `scoring_methodology.py` lines
148–154).  The structure exists so the claim about "configured weights" can be
stated at all. -/
structure Weights where
  affordability : ℚ
  growth : ℚ
  demographic : ℚ
  rentalYield : ℚ
  deriving DecidableEq, Repr

/-- The weight literals inlined in the source's `final_score` expression. -/
def sourceWeights : Weights := ⟨30/100, 40/100, 20/100, 10/100⟩

/-- Core of `calculate_scores`, with the call-site weight literals abstracted
into `w` so the behaviour under other weight values is expressible: estimated
yields, raw component columns, min-max normalization of each component, the
weighted `final_score` column, and the final descending sort by score.
Returns `(county, final_score)` pairs. -/
def scoreRows (w : Weights) (rows : List ScoreInput) : List (String × ℚ) :=
  let median_ca_price := medianQ (rows.map (·.price))
  let affordability_raw := rows.map (fun r => (median_ca_price - r.price) / median_ca_price * 100)
  let growth_raw := rows.map (fun r => r.yoy_growth * (7/10) + r.cagr_3y * (3/10))
  let demographic_raw := rows.map (fun r => r.pop_growth * 10)
  let yield_raw := rows.map (fun r => estimate_yield r.price)
  let affordability_norm := normalize affordability_raw
  let growth_norm := normalize growth_raw
  let demographic_norm := normalize demographic_raw
  let yield_norm := normalize yield_raw
  let final_score := (List.range rows.length).map (fun i =>
    affordability_norm.getD i 0 * w.affordability +
    growth_norm.getD i 0 * w.growth +
    demographic_norm.getD i 0 * w.demographic +
    yield_norm.getD i 0 * w.rentalYield)
  sortBy (fun a b => b.2 ≤ a.2)
    ((rows.zip final_score).map (fun p => (p.1.county, p.2)))

/-- `calculate_scores` as written in the source: `scoreRows` at the inlined
literal weights. -/
def calculate_scores (rows : List ScoreInput) : List (String × ℚ) :=
  scoreRows sourceWeights rows

/-- Outcome of a scoring run as the claim describes it: either a score table
or a surfaced configuration error. -/
inductive ScoreOutcome where
  | scores (result : List (String × ℚ))
  | configError
  deriving DecidableEq, Repr

/-- The scoring run over an explicit weight configuration.  The source
contains no weight-sum check and no error path of any kind, so every
configuration — whatever its weight sum — produces `.scores`. -/
def calculate_scores_config (w : Weights) (rows : List ScoreInput) : ScoreOutcome :=
  ScoreOutcome.scores (scoreRows w rows)

/-! ## Z-score normalization

Embeds `ZScoreCountyScoringMethodology.zscore` from
`scoring_all_counties_zscore.py` (lines 114–120):

    mean = series.mean(); std = series.std()
    if std == 0: return pd.Series([0] * len(series), ...)
    return (series - mean) / std

and the display re-scaling of `calculate_scores_zscore` (lines 215–218):

    df['z_score_normalized'] = ((df['z_score_final'] + 3) / 6) * 100
    df['z_score_normalized'] = df['z_score_normalized'].clip(0, 100)
-/

/-- pandas `Series.mean` (0 on the empty series, since `0 / 0 = 0` in ℚ). -/
def meanQ (l : List ℚ) : ℚ := l.sum / l.length

/-- pandas `Series.var` with the default `ddof = 1` (sample variance). -/
def svarQ (l : List ℚ) : ℚ :=
  (l.map (fun x => (x - meanQ l) ^ 2)).sum / ((l.length : ℚ) - 1)

/-- pandas `Series.std` with the default `ddof = 1`: the square root of the
sample variance. -/
noncomputable def stdDev (l : List ℚ) : ℝ := Real.sqrt ((svarQ l : ℝ))

/-- The z-score transform.  The source guard `std == 0` is written here as the
decidable `svarQ l = 0`; `stdDev_eq_zero_iff` below proves the two conditions
equivalent. -/
noncomputable def zscore (l : List ℚ) : List ℝ :=
  if svarQ l = 0 then List.replicate l.length 0
  else l.map (fun (x : ℚ) => ((x : ℝ) - (meanQ l : ℝ)) / stdDev l)

/-- pandas `Series.clip(lo, hi)`: values below `lo` become `lo`, values above
`hi` become `hi`. -/
noncomputable def clipR (lo hi x : ℝ) : ℝ := min (max x lo) hi

/-- The 0–100 display re-scaling of a composite z-score. -/
noncomputable def z_score_normalized (z : ℝ) : ℝ := clipR 0 100 ((z + 3) / 6 * 100)

/-! ## Per-county metric loading

Embeds `AllCountyScoringMethodology.load_all_county_data` from
`scoring_all_counties.py` (lines 15–97).  Dates are modelled at month
granularity as the index `year * 12 + (month - 1)`; the series is monthly, so
`pd.DateOffset(months = 12)` is subtraction of 12 on the index.  The Nat-side
comparison `r.date + 12 ≤ maxDate` renders the source's
`date <= max_date - 12 months` without truncated subtraction. -/

/-- One row of the per-county master table (`ca_county_master.csv`). -/
structure CRow where
  date : Nat
  zhvi : Option ℚ
  population : Option ℚ
  deriving DecidableEq, Repr

/-- `county_data.sort_values('date')`. -/
def sortByDate (rows : List CRow) : List CRow :=
  sortBy (fun a b => a.date ≤ b.date) rows

/-- `county_data['date'].max()`. -/
def maxDateOf (rows : List CRow) : Nat :=
  (rows.map (·.date)).foldr max 0

/-- Month index of `pd.Timestamp('2023-01-01')`, the recency cutoff. -/
def cutoff2023 : Nat := 2023 * 12

/-- `county_data['zhvi'].iloc[-1]` over the date-sorted rows. -/
def latestPrice (s : List CRow) : Option ℚ :=
  s.getLast?.bind (·.zhvi)

/-- The three skip checks of the loading loop: fewer than 36 months of data,
latest data older than 2023-01, or missing latest price.  `True` means the
county is processed; `False` means the source prints a skip warning and
`continue`s, dropping the county from the output entirely. -/
def keepCounty (rows : List CRow) : Bool :=
  let s := sortByDate rows
  if s.length < 36 then false
  else if maxDateOf rows < cutoff2023 then false
  else (latestPrice s).isSome

/-- Number of leap years `z` with `0 ≤ z < y` (proleptic Gregorian). -/
def leapsBefore (y : Nat) : Nat := (y + 3) / 4 - (y + 99) / 100 + (y + 399) / 400

/-- Days before month `m` (1-based) in a non-leap year. -/
def monthDaysBefore : Nat → Nat
  | 1 => 0 | 2 => 31 | 3 => 59 | 4 => 90 | 5 => 120 | 6 => 151
  | 7 => 181 | 8 => 212 | 9 => 243 | 10 => 273 | 11 => 304 | _ => 334

/-- Whether year `y` is a Gregorian leap year. -/
def isLeap (y : Nat) : Bool := (y % 4 == 0 && y % 100 != 0) || y % 400 == 0

/-- Civil-calendar day number of the first of the month with index `idx`;
differences of these are the `.days` of the source's Timestamp subtraction. -/
def dayNumber (idx : Nat) : Nat :=
  let y := idx / 12
  let m := idx % 12 + 1
  365 * y + leapsBefore y + monthDaysBefore m + (if 2 < m && isLeap y then 1 else 0)

/-- The YoY-growth branch of the loading loop: last observation at least 12
months before the latest date, growth in percent, defaulting to `0` (not
null) when the lookback row is absent or its price is missing. -/
def yoyOf (s : List CRow) : ℚ :=
  let latest := (latestPrice s).getD 0
  match (s.filter (fun r => r.date + 12 ≤ maxDateOf s)).getLast? with
  | none => 0
  | some r =>
    match r.zhvi with
    | none => 0
    | some v => (latest - v) / v * 100

/-- The 3-year-CAGR branch: first observation at least 36 months before the
latest date, annualized via the actual day count over `365.25`, defaulting to
`0` when the lookback is absent. -/
noncomputable def cagrOf (s : List CRow) : ℝ :=
  let latest := (latestPrice s).getD 0
  match (s.filter (fun r => r.date + 36 ≤ maxDateOf s)).head? with
  | none => 0
  | some r0 =>
    match r0.zhvi with
    | none => 0
    | some v =>
      let years : ℚ := ((dayNumber (maxDateOf s) - dayNumber r0.date : ℕ) : ℚ) / (1461 / 4)
      (((latest : ℝ) / (v : ℝ)) ^ ((1 : ℝ) / (years : ℝ)) - 1) * 100

/-- The population-growth branch: first-to-last growth over the non-null
population rows, defaulting to `0` with fewer than two of them. -/
def popGrowthOf (s : List CRow) : ℚ :=
  let p := s.filter (fun r => r.population.isSome)
  if 2 ≤ p.length then
    let first := (p.head?.bind (·.population)).getD 0
    let last := (p.getLast?.bind (·.population)).getD 0
    (last - first) / first * 100
  else 0

/-- The metrics record appended for a processed county. -/
structure CountyMetrics where
  county : String
  price : ℚ
  yoy_growth : ℚ
  cagr_3y : ℝ
  pop_growth : ℚ
  data_months : Nat
  latest_date : Nat

/-- The metrics computed for one county that passed the skip checks. -/
noncomputable def countyMetrics (name : String) (rows : List CRow) : CountyMetrics :=
  let s := sortByDate rows
  { county := name
    price := (latestPrice s).getD 0
    yoy_growth := yoyOf s
    cagr_3y := cagrOf s
    pop_growth := popGrowthOf s
    data_months := rows.length
    latest_date := maxDateOf rows }

/-- `load_all_county_data`, applied to the master table already grouped by
`RegionName` (one entry per county, as the source's per-county filtering
produces): counties failing any skip check are dropped; the rest get their
metrics row. -/
noncomputable def load_all_county_data (df : List (String × List CRow)) :
    List CountyMetrics :=
  (df.filter (fun c => keepCounty c.2)).map (fun c => countyMetrics c.1 c.2)

/-! ## Dates

A calendar date as the cleaning pipeline sees one (`pd.Timestamp` at day
granularity). -/

/-- A calendar date. -/
structure Date where
  year : Nat
  month : Nat
  day : Nat
  deriving DecidableEq, Repr

/-- Month index of a date: `year * 12 + (month - 1)`. -/
def monthKey (d : Date) : Nat := d.year * 12 + (d.month - 1)

/-- First day of the month with index `k`. -/
def monthStart (k : Nat) : Date := ⟨k / 12, k % 12 + 1, 1⟩

/-! ## Wide-to-long reshaping of the Zillow tables

Embeds the date handling of `DataCleaner.load_and_standardize_zillow` from
`data_cleaner.py` (lines 88–94):

    date_cols = [c for c in df.columns if c[0].isdigit() and '-' in c]
    id_vars = [c for c in df.columns if c not in date_cols]
    df_long = df.melt(id_vars=id_vars, value_vars=date_cols,
                      var_name='date', value_name=metric)
    df_long['date'] = pd.to_datetime(df_long['date'])

Column headers are modelled as their character lists.  `pd.to_datetime` on a
`YYYY-MM-DD` header is `parseHeaderDate`; the parsed date is carried into the
long table unmodified — the source applies no snapping to it. -/

/-- Split a character list on `'-'` (the separators of a `YYYY-MM-DD`
header). -/
def splitDash : List Char → List (List Char)
  | [] => [[]]
  | c :: cs =>
    if c = '-' then [] :: splitDash cs
    else
      match splitDash cs with
      | [] => [[c]]
      | g :: gs => (c :: g) :: gs

/-- Read a block of decimal digits as a number. -/
def digitsToNat (cs : List Char) : Option Nat :=
  if cs.isEmpty || !cs.all Char.isDigit then none
  else some (cs.foldl (fun acc c => acc * 10 + (c.toNat - 48)) 0)

/-- `pd.to_datetime` on a `YYYY-MM-DD` column header. -/
def parseHeaderDate (cs : List Char) : Option Date :=
  match (splitDash cs).map digitsToNat with
  | [some y, some m, some d] => some ⟨y, m, d⟩
  | _ => none

/-- The source's date-column test: first character a digit and a `'-'`
somewhere in the header. -/
def isDateCol (cs : List Char) : Bool :=
  (match cs with | [] => false | c :: _ => c.isDigit) && cs.contains '-'

/-- One row of a wide source table: identifier plus one cell per column. -/
structure WideRow where
  region : String
  cells : List (List Char × Option ℚ)
  deriving DecidableEq, Repr

/-- The melt of lines 88–94: one long row per (row, date column) pair, the
date being the parsed header, passed through without modification. -/
def meltWide (rows : List WideRow) : List (String × Date × Option ℚ) :=
  rows.flatMap (fun r =>
    r.cells.filterMap (fun c =>
      if isDateCol c.1 then
        (parseHeaderDate c.1).map (fun d => (r.region, d, c.2))
      else none))

/-! ## Weekly-to-monthly resampling of the mortgage-rate series

Embeds `DataCleaner.load_and_standardize_freddie_mac` from `data_cleaner.py`
(line 625):

    df_monthly = df.set_index('date').resample('MS')['mortgage_rate'].mean()

`resample('MS')` produces one row per month of the covered range, dated at
month start, holding the mean of that month's observations (none if the month
is empty). -/

/-- Monthly resampling with per-month mean. -/
def resampleMSMean (obs : List (Date × ℚ)) : List (Date × Option ℚ) :=
  match obs with
  | [] => []
  | o :: os =>
    let ks := (o :: os).map (fun p => monthKey p.1)
    let lo := ks.foldr min (monthKey o.1)
    let hi := ks.foldr max 0
    (List.range (hi + 1 - lo)).map (fun i =>
      let grp := ((o :: os).filter (fun p => monthKey p.1 == lo + i)).map (·.2)
      (monthStart (lo + i), if grp.isEmpty then none else some (meanQ grp)))

/-! ## Quarterly-to-monthly normalization of the FHFA HPI series

Embeds `DataCleaner.load_and_standardize_fhfa` from `data_cleaner.py`.
Lines 560–567 map a quarter index to its first month and build a
first-of-month date:

    mask_q = df_metro['frequency'] == 'quarterly'
    df_metro.loc[mask_q, 'period'] = (df_metro.loc[mask_q, 'period'] * 3) - 2
    df_metro['date'] = pd.to_datetime(yr + '-' + period + '-01')

Lines 580–588 upsample each metro's series to monthly and fill the gaps:

    subset_monthly = subset.resample('MS').interpolate(method='linear')
-/

/-- The quarter-to-month mapping: quarter `q` lands on its first month. -/
def quarterPeriodToMonth (q : Nat) : Nat := q * 3 - 2

/-- The date built for year `yr` and (already converted) period `m`. -/
def fhfaDate (yr m : Nat) : Date := ⟨yr, m, 1⟩

/-- Linear gap fill between two known observations `k₁` months apart (the
values of `resample('MS').interpolate(method='linear')` strictly before the
second observation). -/
def interpSegment (m₁ : Nat) (v₁ : ℚ) (m₂ : Nat) (v₂ : ℚ) : List (Nat × ℚ) :=
  (List.range (m₂ - m₁)).map (fun i => (m₁ + i, v₁ + (v₂ - v₁) * i / (m₂ - m₁)))

/-- Monthly upsampling with linear interpolation of the gaps, over a series
sorted by month index. -/
def resampleInterp : List (Nat × ℚ) → List (Nat × ℚ)
  | [] => []
  | [p] => [p]
  | p :: q :: rest => interpSegment p.1 p.2 q.1 q.2 ++ resampleInterp (q :: rest)

/-! ## Growth metrics

Embeds `FeatureEngineer.calculate_metrics` from `feature_engineer.py`
(lines 49–57):

    df = df.sort_values(['cbsa_code', 'date'])
    df['price_mom'] = df.groupby('cbsa_code')['zhvi'].pct_change(periods=1)
    df['price_yoy'] = df.groupby('cbsa_code')['zhvi'].pct_change(periods=12)
-/

/-- pandas `Series.pct_change(periods = k)` on a non-null series:
`x[i] / x[i-k] - 1`, null for the first `k` positions. -/
def pct_change (k : Nat) (l : List ℚ) : List (Option ℚ) :=
  (List.range l.length).map (fun i =>
    if k ≤ i then some (l.getD i 0 / l.getD (i - k) 0 - 1) else none)

/-- The `price_yoy` column: 12-period `pct_change` per entity group, each
group's series sorted ascending by date. -/
def price_yoy (groups : List (String × List ℚ)) : List (String × List (Option ℚ)) :=
  groups.map (fun g => (g.1, pct_change 12 g.2))

/-! ## Master-table merge

Embeds `DataCleaner.merge_data` from `data_cleaner.py` (lines 636–672).  Each
optional source is modelled with its one payload column (the upstream loaders
deduplicate their key columns, so a left join takes the first match).  The
`MergeOutcome` type gives the run the error channel the claim talks about:
`fatalError` is the abort a `MissingSourceError` would cause.  No branch of
the source produces it — an empty base table is answered with an empty
DataFrame (`return pd.DataFrame()`), not an exception. -/

/-- A row of the Zillow base table (home values). -/
structure ZillowRow where
  cbsa_code : String
  date : Nat
  zhvi : Option ℚ
  deriving DecidableEq, Repr

/-- A row of a metro-keyed optional source (census population, BLS
employment, FHFA HPI). -/
structure KeyedRow where
  cbsa_code : String
  date : Nat
  value : Option ℚ
  deriving DecidableEq, Repr

/-- A row of the national mortgage-rate series (date-keyed only). -/
structure NationalRow where
  date : Nat
  value : Option ℚ
  deriving DecidableEq, Repr

/-- A merged master row. -/
structure MasterRow where
  cbsa_code : String
  date : Nat
  zhvi : Option ℚ
  population : Option ℚ
  employment : Option ℚ
  hpi : Option ℚ
  mortgage_rate : Option ℚ
  name : Option String
  deriving DecidableEq, Repr

/-- Left-join lookup on `(cbsa_code, date)`. -/
def lookupKeyed (t : List KeyedRow) (c : String) (d : Nat) : Option ℚ :=
  (t.find? (fun r => r.cbsa_code == c && r.date == d)).bind (·.value)

/-- Left-join lookup on `date` alone (the national broadcast). -/
def lookupNational (t : List NationalRow) (d : Nat) : Option ℚ :=
  (t.find? (fun r => r.date == d)).bind (·.value)

/-- Outcome of the merge step: the master table, or the fatal abort the
claim describes. -/
inductive MergeOutcome where
  | table (rows : List MasterRow)
  | fatalError
  deriving DecidableEq, Repr

/-- `merge_data`: empty base table short-circuits to an empty result;
otherwise each optional source is left-joined onto the Zillow rows (a source
that is itself empty contributes nothing), the metro reference supplies the
display name, and the result is sorted by `(cbsa_code, date)`. -/
def merge_data (zillow : List ZillowRow) (census bls fhfa : List KeyedRow)
    (freddie : List NationalRow) (metroRef : List (String × String)) :
    MergeOutcome :=
  if zillow.isEmpty then MergeOutcome.table []
  else
    let master := zillow.map (fun z =>
      { cbsa_code := z.cbsa_code
        date := z.date
        zhvi := z.zhvi
        population := if census.isEmpty then none else lookupKeyed census z.cbsa_code z.date
        employment := if bls.isEmpty then none else lookupKeyed bls z.cbsa_code z.date
        hpi := if fhfa.isEmpty then none else lookupKeyed fhfa z.cbsa_code z.date
        mortgage_rate := if freddie.isEmpty then none else lookupNational freddie z.date
        name := (metroRef.find? (fun p => p.1 == z.cbsa_code)).map (·.2) })
    MergeOutcome.table (sortBy
      (fun a b => a.cbsa_code < b.cbsa_code ||
        (a.cbsa_code == b.cbsa_code && a.date ≤ b.date)) master)

/-! ## Affordability inversion

The min-max methodologies invert price before normalizing:
`scoring_methodology.py` line 118 (and `scoring_all_counties.py` line 171)
computes `affordability_raw = ((median_ca_price - price) / median_ca_price) *
100` and then min-max normalizes that raw column.  The z-score methodologies
normalize first and negate the component:
`scoring_all_counties_zscore.py` lines 181–182 (and the v3 run, lines
277–279) compute `z_price = zscore(price)` and `z_affordability = -z_price`.
-/

/-- The raw affordability column: price inverted against the median before
any normalization. -/
def affordability_raw (median price : ℚ) : ℚ := (median - price) / median * 100

/-- The min-max affordability component of a candidate set of prices. -/
def affordability_norm (prices : List ℚ) : List ℚ :=
  normalize (prices.map (fun p => affordability_raw (medianQ prices) p))

/-- The z-score affordability component: the price z-scores, negated. -/
noncomputable def z_affordability (prices : List ℚ) : List ℝ :=
  (zscore prices).map (fun z => -z)

/-! ## Concrete example data used by the claim theorems -/

/-- A weight configuration whose components sum to 0.9, not 1.0. -/
def badWeights : Weights := ⟨30/100, 40/100, 20/100, 0⟩

/-- A one-county metrics table. -/
def oneCountyInput : List ScoreInput := [⟨"Kern County", 300000, 5, 4, 1⟩]

/-- A county with only two months of history, both recent, with prices
present. -/
def shortCounty : String × List CRow :=
  ("Alpine County", [⟨24288, some 100000, none⟩, ⟨24289, some 101000, none⟩])

/-- A wide Zillow home-value table with one month-end date column, as the
Zillow extracts ship them. -/
def zillowWide : List WideRow :=
  [⟨"Los Angeles, CA",
    [(['2', '0', '2', '4', '-', '0', '1', '-', '3', '1'], some 500000)]⟩]

/-- The home-value series of the concrete YoY scenario: 300000 twelve months
back, 309000 now. -/
def yoySeries : List ℚ :=
  [300000, 300100, 300200, 300300, 300400, 300500, 300600, 300700, 300800,
   300900, 301000, 301100, 309000]

/-! ## Supporting lemmas -/

theorem normalize_getD (l : List ℚ) (i : Nat) (hi : i < l.length) :
    (normalize l).getD i 0 =
      if listMax l = listMin l then 50
      else (l.getD i 0 - listMin l) / (listMax l - listMin l) * 100 := by
  by_cases h : listMax l = listMin l
  · simp [normalize, h, List.getD_eq_getElem, hi]
  · simp [normalize, h, List.getD_eq_getElem, hi]

theorem getD_mem (l : List ℚ) (i : Nat) (hi : i < l.length) : l.getD i 0 ∈ l := by
  rw [List.getD_eq_getElem l 0 hi]
  exact List.getElem_mem hi

theorem listMin_lt_listMax (l : List ℚ) (i : Nat) (hi : i < l.length)
    (h : listMax l ≠ listMin l) : listMin l < listMax l := by
  have hx := getD_mem l i hi
  exact lt_of_le_of_ne (le_trans (listMin_le hx) (le_listMax hx)) (fun e => h e.symm)

/-! ## Claim theorems -/

/-- C2: min-max normalization maps `x` to `(x - min) / (max - min) * 100`;
a constant input yields 50 for every entity; a non-constant input keeps every
normalized value inside `[0, 100]`, sends the minimum raw value to exactly 0
and the maximum raw value to exactly 100. -/
theorem minmax_normalization_spec (l : List ℚ) :
    (listMax l = listMin l → normalize l = List.replicate l.length 50) ∧
    (listMax l ≠ listMin l → ∀ i, i < l.length →
      (0 ≤ (normalize l).getD i 0 ∧ (normalize l).getD i 0 ≤ 100) ∧
      (normalize l).getD i 0 = (l.getD i 0 - listMin l) / (listMax l - listMin l) * 100 ∧
      (l.getD i 0 = listMin l → (normalize l).getD i 0 = 0) ∧
      (l.getD i 0 = listMax l → (normalize l).getD i 0 = 100)) := by
  constructor
  · intro h
    simp [normalize, h]
  · intro h i hi
    have hx := getD_mem l i hi
    have hmin := listMin_le hx
    have hmax := le_listMax hx
    have hlt := listMin_lt_listMax l i hi h
    have hpos : 0 < listMax l - listMin l := by linarith
    have hg := normalize_getD l i hi
    rw [if_neg h] at hg
    refine ⟨⟨?_, ?_⟩, hg, ?_, ?_⟩
    · rw [hg]
      exact mul_nonneg (div_nonneg (by linarith) (le_of_lt hpos)) (by norm_num)
    · rw [hg]
      have h1 : (l.getD i 0 - listMin l) / (listMax l - listMin l) ≤ 1 :=
        (div_le_one hpos).mpr (by linarith)
      nlinarith
    · intro he
      rw [hg, he]
      simp
    · intro he
      rw [hg, he, div_self (ne_of_gt hpos)]
      norm_num

/-- Witness for C2 at the candidate set `[1, 3, 2]` (index 1 holds the
maximum). -/
theorem minmax_normalization_witness :
    (0 ≤ (normalize [1, 3, 2]).getD 1 0 ∧ (normalize [1, 3, 2]).getD 1 0 ≤ 100) ∧
    (normalize [1, 3, 2]).getD 1 0 =
      (([1, 3, 2] : List ℚ).getD 1 0 - listMin [1, 3, 2]) /
        (listMax [1, 3, 2] - listMin [1, 3, 2]) * 100 ∧
    (([1, 3, 2] : List ℚ).getD 1 0 = listMin [1, 3, 2] →
      (normalize [1, 3, 2]).getD 1 0 = 0) ∧
    (([1, 3, 2] : List ℚ).getD 1 0 = listMax [1, 3, 2] →
      (normalize [1, 3, 2]).getD 1 0 = 100) :=
  (minmax_normalization_spec [1, 3, 2]).2
    (by norm_num [listMax, listMin, max_def, min_def]) 1 (by norm_num)

/-- C10: the price-tier rental-yield fallback is total with range
`{6.5, 6.0, 5.5, 5.0, 4.5}` and is monotonically non-increasing in price. -/
theorem estimate_yield_spec :
    (∀ p : ℚ, estimate_yield p = 13/2 ∨ estimate_yield p = 6 ∨
      estimate_yield p = 11/2 ∨ estimate_yield p = 5 ∨ estimate_yield p = 9/2) ∧
    (∀ p₁ p₂ : ℚ, p₁ ≤ p₂ → estimate_yield p₂ ≤ estimate_yield p₁) := by
  constructor
  · intro p
    unfold estimate_yield
    split_ifs <;> tauto
  · intro p₁ p₂ h
    unfold estimate_yield
    split_ifs <;> try norm_num
    all_goals linarith

/-- Witness for C10 at prices 300000 and 800000. -/
theorem estimate_yield_witness :
    (300000 : ℚ) ≤ 800000 ∧ estimate_yield 800000 ≤ estimate_yield 300000 :=
  ⟨by norm_num, estimate_yield_spec.2 300000 800000 (by norm_num)⟩

/-- C1 counterexample: a weight configuration off by 0.1 — far beyond the
claimed 1e-9 tolerance — is not rejected: the scoring run produces a score
table, and no configuration error is surfaced. -/
theorem weight_validation_counterexample :
    badWeights.affordability + badWeights.growth + badWeights.demographic +
        badWeights.rentalYield < 1 - 1/1000000000 ∧
    calculate_scores_config badWeights oneCountyInput =
      ScoreOutcome.scores (scoreRows badWeights oneCountyInput) ∧
    calculate_scores_config badWeights oneCountyInput ≠ ScoreOutcome.configError := by
  refine ⟨by norm_num [badWeights], rfl, ?_⟩
  simp [calculate_scores_config]

/-- C1 as amended: the component weights are the call-site literals
0.30/0.40/0.20/0.10, which sum to exactly 1, but the engine performs no
weight-sum validation — no configuration, whatever its sum, is ever rejected
with a configuration error, and `calculate_scores` is exactly the run at the
hardcoded literals. -/
theorem scoring_weights_hardcoded :
    sourceWeights.affordability + sourceWeights.growth + sourceWeights.demographic +
        sourceWeights.rentalYield = 1 ∧
    (∀ (w : Weights) (rows : List ScoreInput),
      calculate_scores_config w rows ≠ ScoreOutcome.configError) ∧
    (∀ rows : List ScoreInput, calculate_scores rows = scoreRows sourceWeights rows) := by
  refine ⟨by norm_num [sourceWeights], ?_, fun rows => rfl⟩
  intro w rows
  simp [calculate_scores_config]

/-- Witness for C1 (amended): no configuration error at the bad weights
either. -/
theorem scoring_weights_hardcoded_witness :
    calculate_scores_config badWeights oneCountyInput ≠ ScoreOutcome.configError :=
  scoring_weights_hardcoded.2.1 badWeights oneCountyInput

theorem svarQ_nonneg (l : List ℚ) : 0 ≤ svarQ l := by
  cases l with
  | nil => simp [svarQ, meanQ]
  | cons x xs =>
    apply div_nonneg
    · apply List.sum_nonneg
      intro a ha
      rcases List.mem_map.mp ha with ⟨y, _, rfl⟩
      exact sq_nonneg _
    · have h1 : 1 ≤ (x :: xs).length := by simp
      have h2 : (1 : ℚ) ≤ ((x :: xs).length : ℚ) := by exact_mod_cast h1
      linarith

theorem stdDev_eq_zero_iff (l : List ℚ) : stdDev l = 0 ↔ svarQ l = 0 := by
  rw [stdDev, Real.sqrt_eq_zero']
  constructor
  · intro hle
    have h0 : (0 : ℝ) ≤ (svarQ l : ℝ) := by exact_mod_cast svarQ_nonneg l
    have : (svarQ l : ℝ) = 0 := le_antisymm hle h0
    exact_mod_cast this
  · intro h
    simp [h]

/-- C3: z-score normalization maps `x` to `(x - mean) / stddev`; a constant
input (zero sample standard deviation) yields 0 for every entity; and the
0–100 display re-scaling `((z + 3) / 6) * 100` followed by `clip(0, 100)`
always lands in `[0, 100]`. -/
theorem zscore_spec :
    (∀ (n : Nat) (c : ℚ), 2 ≤ n → zscore (List.replicate n c) = List.replicate n 0) ∧
    (∀ l : List ℚ, svarQ l ≠ 0 →
      zscore l = l.map (fun (x : ℚ) => ((x : ℝ) - (meanQ l : ℝ)) / stdDev l)) ∧
    (∀ l : List ℚ, stdDev l = 0 ↔ svarQ l = 0) ∧
    (∀ z : ℝ, 0 ≤ z_score_normalized z ∧ z_score_normalized z ≤ 100) := by
  refine ⟨?_, ?_, stdDev_eq_zero_iff, ?_⟩
  · intro n c hn
    have hn0 : (n : ℚ) ≠ 0 := Nat.cast_ne_zero.mpr (by omega)
    have hmean : meanQ (List.replicate n c) = c := by
      simp [meanQ, List.sum_replicate, nsmul_eq_mul]
      exact mul_div_cancel_left₀ c hn0
    have hvar : svarQ (List.replicate n c) = 0 := by
      simp [svarQ, hmean, List.map_replicate, sub_self]
    simp [zscore, hvar]
  · intro l h
    simp [zscore, h]
  · intro z
    simp only [z_score_normalized, clipR]
    exact ⟨le_min (le_max_right _ _) (by norm_num), min_le_right _ _⟩

/-- Witness for C3: the constant candidate set `[7, 7, 7]` z-scores to all
zeros. -/
theorem zscore_witness :
    zscore (List.replicate 3 7) = List.replicate 3 0 :=
  zscore_spec.1 3 7 (by norm_num)

/-- C4 counterexample: an empty home-value base table makes `merge_data`
return an empty table — the run continues with an empty result instead of
aborting with an error. -/
theorem missing_base_counterexample :
    merge_data [] [] [] [] [] [] = MergeOutcome.table [] ∧
    merge_data [] [] [] [] [] [] ≠ MergeOutcome.fatalError := by
  constructor
  · simp [merge_data]
  · simp [merge_data]

/-- C4 as amended: with an absent (empty) home-value base table,
`merge_data` logs a warning and returns an empty table — it performs no
merging but raises nothing; no input whatsoever makes the merge abort
fatally. -/
theorem merge_empty_base_amended :
    (∀ (census bls fhfa : List KeyedRow) (freddie : List NationalRow)
        (metroRef : List (String × String)),
      merge_data [] census bls fhfa freddie metroRef = MergeOutcome.table []) ∧
    (∀ (zillow : List ZillowRow) (census bls fhfa : List KeyedRow)
        (freddie : List NationalRow) (metroRef : List (String × String)),
      merge_data zillow census bls fhfa freddie metroRef ≠ MergeOutcome.fatalError) := by
  constructor
  · intro census bls fhfa freddie metroRef
    simp [merge_data]
  · intro zillow census bls fhfa freddie metroRef
    simp only [merge_data]
    split <;> simp

/-- Witness for C4 (amended): all-empty inputs produce no fatal abort. -/
theorem merge_empty_base_witness :
    merge_data [] [] [] [] [] [] ≠ MergeOutcome.fatalError :=
  merge_empty_base_amended.2 [] [] [] [] [] []

theorem load_all_county_data_names (df : List (String × List CRow)) :
    (load_all_county_data df).map (·.county) =
      (df.filter (fun c => keepCounty c.2)).map (·.1) := by
  simp [load_all_county_data, List.map_map]
  intro a b _ _
  rfl

/-- C5 counterexample: a county with 2 < 36 months of history and price data
present (so not all metrics are unavailable) is dropped from the output
entirely, not kept with a null metric. -/
theorem insufficient_history_counterexample :
    shortCounty.2.length < 36 ∧
    shortCounty.2.any (fun r => r.zhvi.isSome) = true ∧
    load_all_county_data [shortCounty] = [] := by
  refine ⟨by decide, by decide, ?_⟩
  have hk : keepCounty shortCounty.2 = false := by decide
  simp [load_all_county_data, List.filter_cons, hk]

/-- C5 as amended: a county with fewer than 36 months of history fails the
keep check and is dropped from the output entirely (exactly the counties
passing the check appear, in order); and for a kept county whose 12-month
lookback window is empty the YoY metric is silently defaulted to 0, not set
to null. -/
theorem insufficient_history_amended :
    (∀ rows : List CRow, rows.length < 36 → keepCounty rows = false) ∧
    (∀ df : List (String × List CRow),
      (load_all_county_data df).map (·.county) =
        (df.filter (fun c => keepCounty c.2)).map (·.1)) ∧
    (∀ s : List CRow, s.filter (fun r => r.date + 12 ≤ maxDateOf s) = [] →
      yoyOf s = 0) := by
  refine ⟨?_, load_all_county_data_names, ?_⟩
  · intro rows h
    simp [keepCounty, sortByDate, length_sortBy, h]
  · intro s h
    simp [yoyOf, h]

/-- Witness for C5 (amended): the two-month county fails the keep check. -/
theorem insufficient_history_witness :
    keepCounty shortCounty.2 = false :=
  insufficient_history_amended.1 shortCounty.2 (by decide)

/-- C6 counterexample: the home-value wide table's month-end column header
`2024-01-31` flows into the long table as the 31st — the pass-through applies
no snapping to the first of the month. -/
theorem monthly_canonicalization_counterexample :
    meltWide zillowWide = [("Los Angeles, CA", ⟨2024, 1, 31⟩, some 500000)] ∧
    (Date.day ⟨2024, 1, 31⟩ ≠ 1) := by
  constructor
  · decide
  · decide

/-- C6 as amended: series the cleaner resamples (the weekly mortgage-rate
series, and likewise the quarterly/annual paths that build dates with
`monthStart`) carry first-of-month dates only; but the monthly home-value
series is passed through with each date exactly as parsed from the wide
column header — month-end headers stay month-end. -/
theorem date_normalization_amended :
    (∀ obs : List (Date × ℚ), ∀ p ∈ resampleMSMean obs, p.1.day = 1) ∧
    (∀ rows : List WideRow, ∀ r ∈ meltWide rows,
      ∃ cs, isDateCol cs = true ∧ parseHeaderDate cs = some r.2.1) := by
  constructor
  · intro obs p hp
    cases obs with
    | nil => simp [resampleMSMean] at hp
    | cons o os =>
      simp only [resampleMSMean] at hp
      rcases List.mem_map.mp hp with ⟨i, _, rfl⟩
      simp [monthStart]
  · intro rows r hr
    rcases List.mem_flatMap.mp hr with ⟨w, _, hc⟩
    rcases List.mem_filterMap.mp hc with ⟨c, _, hcr⟩
    by_cases hd : isDateCol c.1
    · rw [if_pos hd] at hcr
      rcases Option.map_eq_some'.mp hcr with ⟨d, hd2, rfl⟩
      exact ⟨c.1, hd, by simp [hd2]⟩
    · rw [if_neg hd] at hcr
      cases hcr

/-- Witness for C6 (amended): the melted Los Angeles row's date is exactly a
parsed date column. -/
theorem date_normalization_witness :
    ∃ cs, isDateCol cs = true ∧
      parseHeaderDate cs =
        some (("Los Angeles, CA", (⟨2024, 1, 31⟩ : Date),
          some (500000 : ℚ)) : String × Date × Option ℚ).2.1 :=
  date_normalization_amended.2 zillowWide _ (by decide)

/-- C7: quarters land on their first month (Q1→Jan, Q2→Apr, Q3→Jul, Q4→Oct,
dated the 1st), and the quarterly series 1000 (Q1), 1030 (Q2) interpolates to
the monthly values 1000, 1010, 1020, 1030 for January through April. -/
theorem quarterly_normalization_spec :
    (∀ yr : Nat,
      fhfaDate yr (quarterPeriodToMonth 1) = ⟨yr, 1, 1⟩ ∧
      fhfaDate yr (quarterPeriodToMonth 2) = ⟨yr, 4, 1⟩ ∧
      fhfaDate yr (quarterPeriodToMonth 3) = ⟨yr, 7, 1⟩ ∧
      fhfaDate yr (quarterPeriodToMonth 4) = ⟨yr, 10, 1⟩) ∧
    resampleInterp [(0, 1000), (3, 1030)] =
      [(0, 1000), (1, 1010), (2, 1020), (3, 1030)] := by
  constructor
  · intro yr
    exact ⟨rfl, rfl, rfl, rfl⟩
  · norm_num [resampleInterp, interpSegment, List.range_succ]

/-- C8: year-over-year growth is `value[t] / value[t-12] - 1` per entity over
the date-sorted series, and the concrete scenario 300000 → 309000 yields
exactly 0.03. -/
theorem price_yoy_spec :
    (∀ (l : List ℚ) (i : Nat), 12 ≤ i → i < l.length →
      (pct_change 12 l).getD i none = some (l.getD i 0 / l.getD (i - 12) 0 - 1)) ∧
    (∀ (name : String) (l : List ℚ),
      price_yoy [(name, l)] = [(name, pct_change 12 l)]) ∧
    (pct_change 12 yoySeries).getD 12 none = some (3 / 100) := by
  have h1 : ∀ (l : List ℚ) (i : Nat), 12 ≤ i → i < l.length →
      (pct_change 12 l).getD i none = some (l.getD i 0 / l.getD (i - 12) 0 - 1) := by
    intro l i h12 hi
    have hb : i < ((List.range l.length).map (fun j =>
        if 12 ≤ j then some (l.getD j 0 / l.getD (j - 12) 0 - 1) else none)).length := by
      simpa using hi
    rw [pct_change, List.getD_eq_getElem _ _ hb, List.getElem_map,
      List.getElem_range, if_pos h12]
  refine ⟨h1, fun name l => rfl, ?_⟩
  have h2 := h1 yoySeries 12 (le_refl 12) (by norm_num [yoySeries])
  rw [h2]
  norm_num [yoySeries]

/-- Witness for C8 at the concrete series. -/
theorem price_yoy_witness :
    (pct_change 12 yoySeries).getD 12 none =
      some (yoySeries.getD 12 0 / yoySeries.getD 0 0 - 1) :=
  price_yoy_spec.1 yoySeries 12 (by norm_num) (by norm_num [yoySeries])

theorem getD_map_q (f : ℚ → ℚ) (l : List ℚ) (i : Nat) (hi : i < l.length) :
    (l.map f).getD i 0 = f (l.getD i 0) := by
  rw [List.getD_eq_getElem _ _ (by simpa using hi), List.getElem_map,
    List.getD_eq_getElem _ _ hi]

theorem normalize_mono (l : List ℚ) (i j : Nat) (hi : i < l.length) (hj : j < l.length)
    (hij : l.getD i 0 ≤ l.getD j 0) :
    (normalize l).getD i 0 ≤ (normalize l).getD j 0 := by
  by_cases h : listMax l = listMin l
  · rw [normalize_getD l i hi, normalize_getD l j hj, if_pos h, if_pos h]
  · rw [normalize_getD l i hi, normalize_getD l j hj, if_neg h, if_neg h]
    have hlt := listMin_lt_listMax l i hi h
    have hpos : 0 < listMax l - listMin l := by linarith
    exact mul_le_mul_of_nonneg_right
      ((div_le_div_iff_of_pos_right hpos).mpr (by linarith)) (by norm_num)

theorem sum_map_neg (l : List ℚ) : (l.map (fun x => -x)).sum = -l.sum := by
  induction l with
  | nil => simp
  | cons x xs ih => simp [ih]; ring

theorem meanQ_map_neg (l : List ℚ) : meanQ (l.map (fun x => -x)) = -meanQ l := by
  simp [meanQ, sum_map_neg, neg_div]

theorem svarQ_map_neg (l : List ℚ) : svarQ (l.map (fun x => -x)) = svarQ l := by
  have hnum : ((l.map (fun x => -x)).map
        (fun x => (x - meanQ (l.map (fun y => -y))) ^ 2)).sum
      = (l.map (fun x => (x - meanQ l) ^ 2)).sum := by
    rw [List.map_map]
    apply congrArg
    apply List.map_congr_left
    intro a _
    simp [Function.comp, meanQ_map_neg]
    ring
  simp only [svarQ, hnum, List.length_map]

theorem stdDev_map_neg (l : List ℚ) : stdDev (l.map (fun x => -x)) = stdDev l := by
  rw [stdDev, stdDev, svarQ_map_neg]

theorem zscore_map_neg (l : List ℚ) :
    zscore (l.map (fun p => -p)) = (zscore l).map (fun z => -z) := by
  by_cases h : svarQ l = 0
  · rw [zscore, zscore, if_pos (by rw [svarQ_map_neg]; exact h), if_pos h]
    simp [List.map_replicate]
  · rw [zscore, zscore, if_neg (by rw [svarQ_map_neg]; exact h), if_neg h,
      List.map_map, List.map_map]
    apply List.map_congr_left
    intro p _
    simp [Function.comp, meanQ_map_neg, stdDev_map_neg]
    ring

theorem zscore_getD (l : List ℚ) (i : Nat) (hi : i < l.length) (h : svarQ l ≠ 0) :
    (zscore l).getD i 0 = (((l.getD i 0 : ℚ) : ℝ) - (meanQ l : ℝ)) / stdDev l := by
  have hlen : i < (l.map (fun (x : ℚ) => ((x : ℝ) - (meanQ l : ℝ)) / stdDev l)).length := by
    simpa using hi
  rw [zscore, if_neg h, List.getD_eq_getElem _ _ hlen, List.getElem_map,
    List.getD_eq_getElem _ _ hi]

theorem z_affordability_getD (l : List ℚ) (i : Nat) (hi : i < l.length)
    (h : svarQ l ≠ 0) :
    (z_affordability l).getD i 0
      = -((((l.getD i 0 : ℚ) : ℝ) - (meanQ l : ℝ)) / stdDev l) := by
  have hz : i < (zscore l).length := by
    rw [zscore, if_neg h]
    simpa using hi
  rw [z_affordability, List.getD_eq_getElem _ _ (by simpa using hz),
    List.getElem_map, ← List.getD_eq_getElem _ _ hz, zscore_getD l i hi h]

/-- C9: the affordability component is antitone in price, and thez-score
implementation's post-normalization negation equals z-scoring the negated
price term.  Conjuncts: (1) min-max methodology — with a positive candidate
median, the strictly cheaper entity's normalized affordability is at least
the dearer one's; (2) `z_affordability = -zscore(price)` coincides with
`zscore(-price)`, i.e. with inverting the price term before normalization;
(3) z-score methodology — the strictly cheaper entity's `z_affordability` is
at least the dearer one's. -/
theorem affordability_inversion_spec :
    (∀ (prices : List ℚ) (i j : Nat), i < prices.length → j < prices.length →
      0 < medianQ prices → prices.getD i 0 < prices.getD j 0 →
      (affordability_norm prices).getD j 0 ≤ (affordability_norm prices).getD i 0) ∧
    (∀ prices : List ℚ, z_affordability prices = zscore (prices.map (fun p => -p))) ∧
    (∀ (prices : List ℚ) (i j : Nat), i < prices.length → j < prices.length →
      prices.getD i 0 < prices.getD j 0 →
      (z_affordability prices).getD j 0 ≤ (z_affordability prices).getD i 0) := by
  refine ⟨?_, fun prices => (zscore_map_neg prices).symm, ?_⟩
  · intro prices i j hi hj hmed hij
    have hraws : ∀ (k : Nat), k < prices.length →
        (prices.map (fun p => affordability_raw (medianQ prices) p)).getD k 0
          = affordability_raw (medianQ prices) (prices.getD k 0) := by
      intro k hk
      exact getD_map_q _ prices k hk
    have hlen : prices.length
        = (prices.map (fun p => affordability_raw (medianQ prices) p)).length := by
      simp
    apply normalize_mono _ j i (by rw [← hlen]; exact hj) (by rw [← hlen]; exact hi)
    rw [hraws j hj, hraws i hi]
    unfold affordability_raw
    exact mul_le_mul_of_nonneg_right
      ((div_le_div_iff_of_pos_right hmed).mpr (by linarith)) (by norm_num)
  · intro prices i j hi hj hij
    by_cases h : svarQ prices = 0
    · have hz : z_affordability prices = List.replicate prices.length 0 := by
        rw [z_affordability, zscore, if_pos h]
        simp [List.map_replicate]
      rw [hz, List.getD_eq_getElem _ _ (by simpa using hj),
        List.getD_eq_getElem _ _ (by simpa using hi)]
      simp
    · rw [z_affordability_getD prices j hj h, z_affordability_getD prices i hi h]
      have hvpos : 0 < svarQ prices :=
        lt_of_le_of_ne (svarQ_nonneg prices) (Ne.symm h)
      have hspos : 0 < stdDev prices := Real.sqrt_pos.mpr (by exact_mod_cast hvpos)
      have hcast : ((prices.getD i 0 : ℚ) : ℝ) < ((prices.getD j 0 : ℚ) : ℝ) := by
        exact_mod_cast hij
      have hd := (div_le_div_iff_of_pos_right hspos).mpr
        (sub_le_sub_right (le_of_lt hcast) ((meanQ prices : ℝ)))
      linarith

/-- Witness for C9 at the two-entity candidate set `[100, 200]`. -/
theorem affordability_inversion_witness :
    (affordability_norm [100, 200]).getD 1 0 ≤ (affordability_norm [100, 200]).getD 0 0 :=
  affordability_inversion_spec.1 [100, 200] 0 1 (by norm_num) (by norm_num)
    (by norm_num [medianQ, sortBy, insertBy]) (by norm_num)

end Housing
